import Mathlib

/-!
Verification of the AIReviewMate server: a shallow embedding of the review
pipeline (Gemini service normalization plus the review endpoint), the JSON
extraction strategies, the GitHub OAuth callback and the pull-request
automation sequence, together with theorems settling the specification
claims about them.

JavaScript values produced by JSON.parse are modelled by the inductive
type `Json`; numbers carry an explicit NaN case because the curse-level
arithmetic in the source can produce NaN from non-numeric length
properties.  Objects are association lists with the first binding of a key
authoritative, matching the unique-key objects JSON.parse yields.
-/

namespace AIReview

/-- A JavaScript number: either an actual (finite) value, modelled as a
rational, or NaN.  JSON.parse never produces NaN, but the arithmetic in
the curse-level derivation can. -/
inductive JNum where
  | val (q : ℚ)
  | nan
deriving DecidableEq, Repr

/-- A JavaScript value as produced by JSON.parse (no undefined: absent
object fields are modelled with Option at use sites). -/
inductive Json where
  | null
  | bool (b : Bool)
  | num (n : JNum)
  | str (s : String)
  | arr (elts : List Json)
  | obj (fields : List (String × Json))

/-- Property read on an object, first binding of the key wins (JSON.parse
objects are key-unique).  Returns none for an absent key (undefined). -/
def getF : List (String × Json) → String → Option Json
  | [], _ => none
  | (a, b) :: t, k => if a = k then some b else getF t k

/-- Property assignment on an object: overwrite the binding of the key if
present, otherwise append it. -/
def setF : List (String × Json) → String → Json → List (String × Json)
  | [], k, v => [(k, v)]
  | (a, b) :: t, k, v => if a = k then (k, v) :: t else (a, b) :: setF t k v

@[simp] theorem getF_setF_self (o : List (String × Json)) (k : String) (v : Json) :
    getF (setF o k v) k = some v := by
  induction o with
  | nil => simp [getF, setF]
  | cons p t ih =>
    obtain ⟨a, b⟩ := p
    by_cases h : a = k
    · simp [getF, setF, h]
    · simp [getF, setF, h, ih]

@[simp] theorem getF_setF_of_ne (o : List (String × Json)) (k k' : String) (v : Json)
    (h : k' ≠ k) : getF (setF o k v) k' = getF o k' := by
  induction o with
  | nil => simp [getF, setF, Ne.symm h]
  | cons p t ih =>
    obtain ⟨a, b⟩ := p
    by_cases hak : a = k
    · subst hak
      simp [getF, setF, h, Ne.symm h]
    · by_cases hak' : a = k'
      · subst hak'
        simp [getF, setF, h, hak]
      · simp [getF, setF, hak, hak', ih]

/-- JavaScript truthiness of a value. -/
def truthy : Json → Bool
  | Json.null => false
  | Json.bool b => b
  | Json.num (JNum.val q) => q != 0
  | Json.num JNum.nan => false
  | Json.str s => s != ""
  | Json.arr _ => true
  | Json.obj _ => true

/-- Truthiness of a possibly-undefined value. -/
def truthyO : Option Json → Bool
  | none => false
  | some v => truthy v

/-- JavaScript `x || d` on a possibly-undefined value. -/
def jsOr (v : Option Json) (d : Json) : Json :=
  match v with
  | some x => if truthy x then x else d
  | none => d

def isNumO : Option Json → Bool
  | some (Json.num _) => true
  | _ => false

def isStrO : Option Json → Bool
  | some (Json.str _) => true
  | _ => false

def isArrO : Option Json → Bool
  | some (Json.arr _) => true
  | _ => false

/-! ## String utilities shared by the embedded handlers -/

/-- ASCII whitespace, standing in for the whitespace classes of the
JavaScript `trim` and the regex `\s`. -/
def isWs (c : Char) : Bool :=
  c == ' ' || c == '\t' || c == '\n' || c == '\r' || c == Char.ofNat 11 || c == Char.ofNat 12

/-- JavaScript `String.prototype.trim` on a character list. -/
def trimL (l : List Char) : List Char :=
  ((l.dropWhile isWs).reverse.dropWhile isWs).reverse

/-- Substring test on character lists (JavaScript `String.prototype.includes`). -/
def hasSubL (needle : List Char) : List Char → Bool
  | [] => needle.isEmpty
  | c :: t => needle.isPrefixOf (c :: t) || hasSubL needle t

/-- JavaScript `hay.includes(needle)`. -/
def hasS (hay needle : String) : Bool := hasSubL needle.data hay.data

/-- JavaScript `s || d` for strings (empty string is falsy). -/
def orDefaultStr (s d : String) : String := if s == "" then d else s

/-! ## JavaScript number semantics used by the curse-level arithmetic -/

/-- Addition; NaN is absorbing. -/
def jnAdd : JNum → JNum → JNum
  | JNum.val a, JNum.val b => JNum.val (a + b)
  | _, _ => JNum.nan

/-- Multiplication; NaN is absorbing (the source never multiplies zero by
an infinite value, the one case where JavaScript would also give NaN). -/
def jnMul : JNum → JNum → JNum
  | JNum.val a, JNum.val b => JNum.val (a * b)
  | _, _ => JNum.nan

/-- `Math.min`; NaN is absorbing. -/
def jnMin : JNum → JNum → JNum
  | JNum.val a, JNum.val b => JNum.val (min a b)
  | _, _ => JNum.nan

/-- `Math.max`; NaN is absorbing. -/
def jnMax : JNum → JNum → JNum
  | JNum.val a, JNum.val b => JNum.val (max a b)
  | _, _ => JNum.nan

/-- `Math.round`: floor of x + 1/2, NaN propagates. -/
def jnRound : JNum → JNum
  | JNum.val q => JNum.val (Int.floor (q + 1 / 2))
  | JNum.nan => JNum.nan

/-- Digit-list value, most significant first. -/
def digitsVal (l : List Char) : ℚ :=
  l.foldl (fun acc c => acc * 10 + ((c.toNat - 48 : ℕ) : ℚ)) 0

/-- Parse an unsigned decimal literal: digits, optionally followed by a
point and more digits.  none stands for NaN. -/
def parseDecimal (l : List Char) : Option ℚ :=
  let ip := l.takeWhile Char.isDigit
  let rest := l.dropWhile Char.isDigit
  match rest with
  | [] => if ip.isEmpty then none else some (digitsVal ip)
  | c :: t =>
    if c == '.' then
      let fp := t.takeWhile Char.isDigit
      if ip.isEmpty && fp.isEmpty then none
      else if (t.dropWhile Char.isDigit).isEmpty then
        some (digitsVal ip + digitsVal fp / 10 ^ fp.length)
      else none
    else none

/-- JavaScript `Number(string)`, restricted to the plain decimal grammar
(sign, digits, one point).  Hexadecimal, exponent and Infinity forms,
which the source never feeds to this conversion, are mapped to NaN. -/
def jsStrToNum (s : String) : JNum :=
  match trimL s.data with
  | [] => JNum.val 0
  | c :: t =>
    if c == '+' then (match parseDecimal t with | some q => JNum.val q | none => JNum.nan)
    else if c == '-' then (match parseDecimal t with | some q => JNum.val (-q) | none => JNum.nan)
    else (match parseDecimal (c :: t) with | some q => JNum.val q | none => JNum.nan)

/-- JavaScript ToNumber on a parsed JSON value.  Non-empty arrays, which
convert through a string join in JavaScript, are simplified to NaN; the
claims never exercise that corner. -/
def toNumber : Json → JNum
  | Json.num n => n
  | Json.null => JNum.val 0
  | Json.bool b => JNum.val (if b then 1 else 0)
  | Json.str s => jsStrToNum s
  | Json.arr [] => JNum.val 0
  | Json.arr (_ :: _) => JNum.nan
  | Json.obj _ => JNum.nan

/-- ToNumber on a possibly-undefined value (undefined converts to NaN). -/
def toNumberO : Option Json → JNum
  | some v => toNumber v
  | none => JNum.nan

/-- JavaScript optional-chained length read `x?.length`: length of an
array or string, the `length` field of a plain object, undefined
otherwise. -/
def lenVal : Option Json → Option Json
  | some (Json.arr xs) => some (Json.num (JNum.val xs.length))
  | some (Json.str s) => some (Json.num (JNum.val s.length))
  | some (Json.obj fs) => getF fs "length"
  | _ => none

/-- Plain `x.length` as used by the endpoint once the field is known to be
an array (string case included for totality). -/
def lenNat : Option Json → ℕ
  | some (Json.arr xs) => xs.length
  | some (Json.str s) => s.length
  | _ => 0

/-- `Array.isArray(x) ? x : []` as a value. -/
def asArr : Option Json → Json
  | some (Json.arr xs) => Json.arr xs
  | _ => Json.arr []

/-- The element list of an array value, empty for anything else. -/
def asList : Option Json → List Json
  | some (Json.arr xs) => xs
  | _ => []

/-! ## Gemini service normalization (reviewCode post-processing)

Embeds src/unnamed/part_001 lines 126 to 156: defaults for the three
finding lists, updatedCode, changes, curse-level derivation, verdict
placeholder, array coercion, and the final round and clamp. -/

/-- Lines 126 to 131: if any of errors, warnings, suggestions is falsy,
reassign each to itself-or-empty-array. -/
def gnDefaults (o : List (String × Json)) : List (String × Json) :=
  if truthyO (getF o "errors") && truthyO (getF o "warnings") &&
      truthyO (getF o "suggestions") then o
  else
    let o1 := setF o "errors" (jsOr (getF o "errors") (Json.arr []))
    let o2 := setF o1 "warnings" (jsOr (getF o1 "warnings") (Json.arr []))
    setF o2 "suggestions" (jsOr (getF o2 "suggestions") (Json.arr []))

/-- Line 134: `updatedCode = updatedCode || null`. -/
def gnUpdated (o : List (String × Json)) : List (String × Json) :=
  setF o "updatedCode" (jsOr (getF o "updatedCode") Json.null)

/-- Line 135: `changes = Array.isArray(changes) ? changes : []`. -/
def gnChanges (o : List (String × Json)) : List (String × Json) :=
  setF o "changes" (asArr (getF o "changes"))

/-- The derived curse level of lines 139 to 141:
`min(100, (errors?.length || 0) * 30 + (warnings?.length || 0) * 10)`,
with JavaScript coercion of the length values. -/
def curseCalc (o : List (String × Json)) : JNum :=
  jnMin (JNum.val 100)
    (jnAdd
      (jnMul (toNumber (jsOr (lenVal (getF o "errors")) (Json.num (JNum.val 0)))) (JNum.val 30))
      (jnMul (toNumber (jsOr (lenVal (getF o "warnings")) (Json.num (JNum.val 0)))) (JNum.val 10)))

/-- Lines 137 to 142: derive curseLevel when it is not number-typed. -/
def gnCurse (o : List (String × Json)) : List (String × Json) :=
  if isNumO (getF o "curseLevel") then o
  else setF o "curseLevel" (Json.num (curseCalc o))

/-- The fixed verdict placeholder. -/
def verdictPlaceholder : String := "The code has been analyzed by The Code Reaper."

/-- Lines 144 to 146: substitute the placeholder when verdict is falsy or
not a string. -/
def gnVerdict (o : List (String × Json)) : List (String × Json) :=
  if truthyO (getF o "verdict") && isStrO (getF o "verdict") then o
  else setF o "verdict" (Json.str verdictPlaceholder)

/-- Lines 149 to 151: coerce the three finding fields to arrays. -/
def gnArrays (o : List (String × Json)) : List (String × Json) :=
  let o1 := setF o "errors" (asArr (getF o "errors"))
  let o2 := setF o1 "warnings" (asArr (getF o1 "warnings"))
  setF o2 "suggestions" (asArr (getF o2 "suggestions"))

/-- Line 154: `curseLevel = Math.max(0, Math.min(100, Math.round(curseLevel)))`. -/
def gnClamp (o : List (String × Json)) : List (String × Json) :=
  setF o "curseLevel"
    (Json.num (jnMax (JNum.val 0) (jnMin (JNum.val 100) (jnRound (toNumberO (getF o "curseLevel"))))))

/-- The whole post-parse normalization of reviewCode. -/
def geminiNormalize (o : List (String × Json)) : List (String × Json) :=
  gnClamp (gnArrays (gnVerdict (gnCurse (gnChanges (gnUpdated (gnDefaults o))))))

/-! ## Review endpoint re-normalization

Embeds src/unnamed/part_000 lines 144 to 154 (the defensive field checks
the POST /review handler performs on the service result). -/

/-- Coerce the three finding fields to arrays (assignment only happens
when the field is not an array, which yields the same object). -/
def epArrays (o : List (String × Json)) : List (String × Json) :=
  let o1 := if isArrO (getF o "errors") then o else setF o "errors" (Json.arr [])
  let o2 := if isArrO (getF o1 "warnings") then o1 else setF o1 "warnings" (Json.arr [])
  if isArrO (getF o2 "suggestions") then o2 else setF o2 "suggestions" (Json.arr [])

/-- Derive curseLevel from the (by now array-typed) finding lists when it
is not number-typed. -/
def epCurse (o : List (String × Json)) : List (String × Json) :=
  if isNumO (getF o "curseLevel") then o
  else
    setF o "curseLevel"
      (Json.num (jnMin (JNum.val 100)
        (JNum.val (lenNat (getF o "errors") * 30 + lenNat (getF o "warnings") * 10))))

/-- Substitute the placeholder when verdict is falsy or not a string. -/
def epVerdict (o : List (String × Json)) : List (String × Json) :=
  if truthyO (getF o "verdict") && isStrO (getF o "verdict") then o
  else setF o "verdict" (Json.str verdictPlaceholder)

/-- The endpoint re-normalization. -/
def endpointNormalize (o : List (String × Json)) : List (String × Json) :=
  epVerdict (epCurse (epArrays o))

/-- The full review pipeline a parsed provider object goes through before
being serialized in a 200 response: service normalization followed by the
endpoint re-normalization. -/
def reviewPipeline (o : List (String × Json)) : List (String × Json) :=
  endpointNormalize (geminiNormalize o)

/-! ## Field characterizations of the normalization stages -/

/-- The number held by a number-typed field (NaN for anything else). -/
def numOfD : Option Json → JNum
  | some (Json.num n) => n
  | _ => JNum.nan

/-- The verdict string the normalization settles on. -/
def verdictStr : Option Json → String
  | some (Json.str s) => if s = "" then verdictPlaceholder else s
  | _ => verdictPlaceholder

/-- The number the final curse level is derived from: the provider value
when number-typed, the computed count formula otherwise, both read on the
object as it stands just before the derivation. -/
def curseSource (o : List (String × Json)) : JNum :=
  let p := gnChanges (gnUpdated (gnDefaults o))
  if isNumO (getF p "curseLevel") then numOfD (getF p "curseLevel") else curseCalc p

theorem getF_gnDefaults_errors (o : List (String × Json)) :
    getF (gnDefaults o) "errors" = some (jsOr (getF o "errors") (Json.arr [])) := by
  unfold gnDefaults
  split
  · rename_i h
    simp only [Bool.and_eq_true] at h
    obtain ⟨⟨h1, h2⟩, h3⟩ := h
    cases he : getF o "errors" with
    | none => rw [he] at h1; simp [truthyO] at h1
    | some x =>
      rw [he] at h1
      simp only [truthyO] at h1
      simp [jsOr, h1]
  · simp

theorem getF_gnDefaults_warnings (o : List (String × Json)) :
    getF (gnDefaults o) "warnings" = some (jsOr (getF o "warnings") (Json.arr [])) := by
  unfold gnDefaults
  split
  · rename_i h
    simp only [Bool.and_eq_true] at h
    obtain ⟨⟨h1, h2⟩, h3⟩ := h
    cases he : getF o "warnings" with
    | none => rw [he] at h2; simp [truthyO] at h2
    | some x =>
      rw [he] at h2
      simp only [truthyO] at h2
      simp [jsOr, h2]
  · simp

theorem getF_gnDefaults_suggestions (o : List (String × Json)) :
    getF (gnDefaults o) "suggestions" = some (jsOr (getF o "suggestions") (Json.arr [])) := by
  unfold gnDefaults
  split
  · rename_i h
    simp only [Bool.and_eq_true] at h
    obtain ⟨⟨h1, h2⟩, h3⟩ := h
    cases he : getF o "suggestions" with
    | none => rw [he] at h3; simp [truthyO] at h3
    | some x =>
      rw [he] at h3
      simp only [truthyO] at h3
      simp [jsOr, h3]
  · simp

theorem getF_gnDefaults_frame (o : List (String × Json)) (k : String)
    (h1 : k ≠ "errors") (h2 : k ≠ "warnings") (h3 : k ≠ "suggestions") :
    getF (gnDefaults o) k = getF o k := by
  unfold gnDefaults
  split
  · rfl
  · simp [h1, h2, h3]

theorem getF_gnUpdated_updated (o : List (String × Json)) :
    getF (gnUpdated o) "updatedCode" = some (jsOr (getF o "updatedCode") Json.null) := by
  simp [gnUpdated]

theorem getF_gnUpdated_frame (o : List (String × Json)) (k : String)
    (h : k ≠ "updatedCode") : getF (gnUpdated o) k = getF o k := by
  simp [gnUpdated, h]

theorem getF_gnChanges_changes (o : List (String × Json)) :
    getF (gnChanges o) "changes" = some (asArr (getF o "changes")) := by
  simp [gnChanges]

theorem getF_gnChanges_frame (o : List (String × Json)) (k : String)
    (h : k ≠ "changes") : getF (gnChanges o) k = getF o k := by
  simp [gnChanges, h]

theorem getF_gnCurse_curse (o : List (String × Json)) :
    getF (gnCurse o) "curseLevel" =
      some (Json.num (if isNumO (getF o "curseLevel") then numOfD (getF o "curseLevel")
        else curseCalc o)) := by
  unfold gnCurse
  split
  · rename_i h
    cases he : getF o "curseLevel" with
    | none => rw [he] at h; simp [isNumO] at h
    | some x =>
      cases x with
      | num n => simp [numOfD, he]
      | _ => rw [he] at h; simp [isNumO] at h
  · simp

theorem getF_gnCurse_frame (o : List (String × Json)) (k : String)
    (h : k ≠ "curseLevel") : getF (gnCurse o) k = getF o k := by
  unfold gnCurse
  split
  · rfl
  · simp [h]

theorem getF_gnVerdict_verdict (o : List (String × Json)) :
    getF (gnVerdict o) "verdict" = some (Json.str (verdictStr (getF o "verdict"))) := by
  unfold gnVerdict
  split
  · rename_i h
    simp only [Bool.and_eq_true] at h
    obtain ⟨h1, h2⟩ := h
    cases he : getF o "verdict" with
    | none => rw [he] at h2; simp [isStrO] at h2
    | some x =>
      cases x with
      | str s =>
        rw [he] at h1
        simp only [truthyO, truthy] at h1
        have hs : s ≠ "" := by simpa using h1
        simp [verdictStr, he, hs]
      | _ => rw [he] at h2; simp [isStrO] at h2
  · rename_i h
    simp only [Bool.and_eq_true, not_and] at h
    cases he : getF o "verdict" with
    | none => simp [verdictStr]
    | some x =>
      cases x with
      | str s =>
        rw [he] at h
        by_cases hs : s = ""
        · simp [verdictStr, hs]
        · exfalso
          apply h
          · simp [truthyO, truthy, hs]
          · simp [isStrO]
      | _ => simp [verdictStr]

theorem getF_gnVerdict_frame (o : List (String × Json)) (k : String)
    (h : k ≠ "verdict") : getF (gnVerdict o) k = getF o k := by
  unfold gnVerdict
  split
  · rfl
  · simp [h]

theorem getF_gnArrays_errors (o : List (String × Json)) :
    getF (gnArrays o) "errors" = some (asArr (getF o "errors")) := by
  simp [gnArrays]

theorem getF_gnArrays_warnings (o : List (String × Json)) :
    getF (gnArrays o) "warnings" = some (asArr (getF o "warnings")) := by
  simp [gnArrays]

theorem getF_gnArrays_suggestions (o : List (String × Json)) :
    getF (gnArrays o) "suggestions" = some (asArr (getF o "suggestions")) := by
  simp [gnArrays]

theorem getF_gnArrays_frame (o : List (String × Json)) (k : String)
    (h1 : k ≠ "errors") (h2 : k ≠ "warnings") (h3 : k ≠ "suggestions") :
    getF (gnArrays o) k = getF o k := by
  simp [gnArrays, h1, h2, h3]

theorem getF_gnClamp_curse (o : List (String × Json)) :
    getF (gnClamp o) "curseLevel" =
      some (Json.num (jnMax (JNum.val 0) (jnMin (JNum.val 100)
        (jnRound (toNumberO (getF o "curseLevel")))))) := by
  simp [gnClamp]

theorem getF_gnClamp_frame (o : List (String × Json)) (k : String)
    (h : k ≠ "curseLevel") : getF (gnClamp o) k = getF o k := by
  simp [gnClamp, h]

/-- `x || []` followed by array coercion keeps exactly the elements of an
array-typed field and flattens everything else to the empty array. -/
theorem asArr_jsOr_arr (v : Option Json) :
    asArr (some (jsOr v (Json.arr []))) = Json.arr (asList v) := by
  cases v with
  | none => simp [jsOr, asArr, asList]
  | some x =>
    cases x with
    | arr xs => simp [jsOr, truthy, asArr, asList]
    | null => simp [jsOr, truthy, asArr, asList]
    | bool b => cases b <;> simp [jsOr, truthy, asArr, asList]
    | num n =>
      cases n with
      | val q =>
        by_cases hq : q = 0 <;> simp [jsOr, truthy, asArr, asList, hq]
      | nan => simp [jsOr, truthy, asArr, asList]
    | str s =>
      by_cases hs : s = "" <;> simp [jsOr, truthy, asArr, asList, hs]
    | obj fs => simp [jsOr, truthy, asArr, asList]

/-- Array coercion always yields the element list of the input. -/
theorem asArr_eq (v : Option Json) : asArr v = Json.arr (asList v) := by
  cases v with
  | none => rfl
  | some x => cases x <;> rfl

/-- The settled verdict string is never empty. -/
theorem verdictStr_ne_empty (v : Option Json) : verdictStr v ≠ "" := by
  cases v with
  | none => simp [verdictStr, verdictPlaceholder]
  | some x =>
    cases x with
    | str s =>
      by_cases hs : s = "" <;> simp [verdictStr, verdictPlaceholder, hs]
    | _ => simp [verdictStr, verdictPlaceholder]

/-! ## Field values after the service normalization -/

theorem getF_gemini_errors (o : List (String × Json)) :
    getF (geminiNormalize o) "errors" = some (Json.arr (asList (getF o "errors"))) := by
  unfold geminiNormalize
  rw [getF_gnClamp_frame _ _ (by decide), getF_gnArrays_errors,
    getF_gnVerdict_frame _ _ (by decide), getF_gnCurse_frame _ _ (by decide),
    getF_gnChanges_frame _ _ (by decide), getF_gnUpdated_frame _ _ (by decide),
    getF_gnDefaults_errors, asArr_jsOr_arr]

theorem getF_gemini_warnings (o : List (String × Json)) :
    getF (geminiNormalize o) "warnings" = some (Json.arr (asList (getF o "warnings"))) := by
  unfold geminiNormalize
  rw [getF_gnClamp_frame _ _ (by decide), getF_gnArrays_warnings,
    getF_gnVerdict_frame _ _ (by decide), getF_gnCurse_frame _ _ (by decide),
    getF_gnChanges_frame _ _ (by decide), getF_gnUpdated_frame _ _ (by decide),
    getF_gnDefaults_warnings, asArr_jsOr_arr]

theorem getF_gemini_suggestions (o : List (String × Json)) :
    getF (geminiNormalize o) "suggestions" = some (Json.arr (asList (getF o "suggestions"))) := by
  unfold geminiNormalize
  rw [getF_gnClamp_frame _ _ (by decide), getF_gnArrays_suggestions,
    getF_gnVerdict_frame _ _ (by decide), getF_gnCurse_frame _ _ (by decide),
    getF_gnChanges_frame _ _ (by decide), getF_gnUpdated_frame _ _ (by decide),
    getF_gnDefaults_suggestions, asArr_jsOr_arr]

theorem getF_gemini_changes (o : List (String × Json)) :
    getF (geminiNormalize o) "changes" = some (Json.arr (asList (getF o "changes"))) := by
  unfold geminiNormalize
  rw [getF_gnClamp_frame _ _ (by decide),
    getF_gnArrays_frame _ _ (by decide) (by decide) (by decide),
    getF_gnVerdict_frame _ _ (by decide), getF_gnCurse_frame _ _ (by decide),
    getF_gnChanges_changes, getF_gnUpdated_frame _ _ (by decide),
    getF_gnDefaults_frame _ _ (by decide) (by decide) (by decide), asArr_eq]

theorem getF_gemini_updated (o : List (String × Json)) :
    getF (geminiNormalize o) "updatedCode" = some (jsOr (getF o "updatedCode") Json.null) := by
  unfold geminiNormalize
  rw [getF_gnClamp_frame _ _ (by decide),
    getF_gnArrays_frame _ _ (by decide) (by decide) (by decide),
    getF_gnVerdict_frame _ _ (by decide), getF_gnCurse_frame _ _ (by decide),
    getF_gnChanges_frame _ _ (by decide), getF_gnUpdated_updated,
    getF_gnDefaults_frame _ _ (by decide) (by decide) (by decide)]

theorem getF_gemini_verdict (o : List (String × Json)) :
    getF (geminiNormalize o) "verdict" = some (Json.str (verdictStr (getF o "verdict"))) := by
  unfold geminiNormalize
  rw [getF_gnClamp_frame _ _ (by decide),
    getF_gnArrays_frame _ _ (by decide) (by decide) (by decide),
    getF_gnVerdict_verdict, getF_gnCurse_frame _ _ (by decide),
    getF_gnChanges_frame _ _ (by decide), getF_gnUpdated_frame _ _ (by decide),
    getF_gnDefaults_frame _ _ (by decide) (by decide) (by decide)]

theorem getF_gemini_curse (o : List (String × Json)) :
    getF (geminiNormalize o) "curseLevel" =
      some (Json.num (jnMax (JNum.val 0) (jnMin (JNum.val 100) (jnRound (curseSource o))))) := by
  unfold geminiNormalize
  rw [getF_gnClamp_curse,
    getF_gnArrays_frame _ _ (by decide) (by decide) (by decide),
    getF_gnVerdict_frame _ _ (by decide), getF_gnCurse_curse]
  rfl

/-! ## The endpoint re-normalization fixes the service output -/

theorem epArrays_id (o : List (String × Json))
    (h1 : isArrO (getF o "errors") = true) (h2 : isArrO (getF o "warnings") = true)
    (h3 : isArrO (getF o "suggestions") = true) : epArrays o = o := by
  simp [epArrays, h1, h2, h3]

theorem epCurse_id (o : List (String × Json))
    (h : isNumO (getF o "curseLevel") = true) : epCurse o = o := by
  simp [epCurse, h]

theorem epVerdict_id (o : List (String × Json))
    (h1 : truthyO (getF o "verdict") = true) (h2 : isStrO (getF o "verdict") = true) :
    epVerdict o = o := by
  simp [epVerdict, h1, h2]

/-- On the output of the service normalization, the defensive endpoint
re-normalization is the identity: every guard it checks already holds. -/
theorem endpointNormalize_gemini (o : List (String × Json)) :
    endpointNormalize (geminiNormalize o) = geminiNormalize o := by
  have h1 : isArrO (getF (geminiNormalize o) "errors") = true := by
    rw [getF_gemini_errors]; rfl
  have h2 : isArrO (getF (geminiNormalize o) "warnings") = true := by
    rw [getF_gemini_warnings]; rfl
  have h3 : isArrO (getF (geminiNormalize o) "suggestions") = true := by
    rw [getF_gemini_suggestions]; rfl
  have hc : isNumO (getF (geminiNormalize o) "curseLevel") = true := by
    rw [getF_gemini_curse]; rfl
  have hv2 : isStrO (getF (geminiNormalize o) "verdict") = true := by
    rw [getF_gemini_verdict]; rfl
  have hv1 : truthyO (getF (geminiNormalize o) "verdict") = true := by
    rw [getF_gemini_verdict]
    simp [truthyO, truthy, verdictStr_ne_empty (getF o "verdict")]
  unfold endpointNormalize
  rw [epArrays_id _ h1 h2 h3, epCurse_id _ hc, epVerdict_id _ hv1 hv2]

/-! ## Field values after the whole pipeline -/

theorem getF_pipeline_errors (o : List (String × Json)) :
    getF (reviewPipeline o) "errors" = some (Json.arr (asList (getF o "errors"))) := by
  unfold reviewPipeline
  rw [endpointNormalize_gemini, getF_gemini_errors]

theorem getF_pipeline_warnings (o : List (String × Json)) :
    getF (reviewPipeline o) "warnings" = some (Json.arr (asList (getF o "warnings"))) := by
  unfold reviewPipeline
  rw [endpointNormalize_gemini, getF_gemini_warnings]

theorem getF_pipeline_suggestions (o : List (String × Json)) :
    getF (reviewPipeline o) "suggestions" = some (Json.arr (asList (getF o "suggestions"))) := by
  unfold reviewPipeline
  rw [endpointNormalize_gemini, getF_gemini_suggestions]

theorem getF_pipeline_changes (o : List (String × Json)) :
    getF (reviewPipeline o) "changes" = some (Json.arr (asList (getF o "changes"))) := by
  unfold reviewPipeline
  rw [endpointNormalize_gemini, getF_gemini_changes]

theorem getF_pipeline_updated (o : List (String × Json)) :
    getF (reviewPipeline o) "updatedCode" = some (jsOr (getF o "updatedCode") Json.null) := by
  unfold reviewPipeline
  rw [endpointNormalize_gemini, getF_gemini_updated]

theorem getF_pipeline_verdict (o : List (String × Json)) :
    getF (reviewPipeline o) "verdict" = some (Json.str (verdictStr (getF o "verdict"))) := by
  unfold reviewPipeline
  rw [endpointNormalize_gemini, getF_gemini_verdict]

theorem getF_pipeline_curse (o : List (String × Json)) :
    getF (reviewPipeline o) "curseLevel" =
      some (Json.num (jnMax (JNum.val 0) (jnMin (JNum.val 100) (jnRound (curseSource o))))) := by
  unfold reviewPipeline
  rw [endpointNormalize_gemini, getF_gemini_curse]

/-- The `length || 0` read of an actual number is that number. -/
theorem toNumber_jsOr_num (q : ℚ) :
    toNumber (jsOr (some (Json.num (JNum.val q))) (Json.num (JNum.val 0))) = JNum.val q := by
  by_cases hq : q = 0 <;> simp [jsOr, truthy, toNumber, hq]

/-- Rounding a natural number viewed as a rational is the identity. -/
theorem jnRound_val_nat (n : ℕ) :
    jnRound (JNum.val ((n : ℕ) : ℚ)) = JNum.val ((n : ℕ) : ℚ) := by
  have hfl : (⌊((n : ℚ) + 1 / 2)⌋ : ℤ) = (n : ℤ) := by
    rw [Int.floor_eq_iff]
    constructor
    · push_cast; linarith
    · push_cast; linarith
  show JNum.val ((⌊((n : ℚ) + 1 / 2)⌋ : ℤ) : ℚ) = JNum.val ((n : ℕ) : ℚ)
  rw [hfl]
  norm_num

/-- When the parsed object carries list-typed errors and warnings and no
numeric curseLevel, the derived curse number is the count formula. -/
theorem curseSource_of_lists (o : List (String × Json)) (es ws : List Json)
    (he : getF o "errors" = some (Json.arr es)) (hw : getF o "warnings" = some (Json.arr ws))
    (hc : isNumO (getF o "curseLevel") = false) :
    curseSource o =
      JNum.val (min 100 ((es.length : ℚ) * 30 + (ws.length : ℚ) * 10)) := by
  have hp : getF (gnChanges (gnUpdated (gnDefaults o))) "curseLevel" = getF o "curseLevel" := by
    rw [getF_gnChanges_frame _ _ (by decide), getF_gnUpdated_frame _ _ (by decide),
      getF_gnDefaults_frame _ _ (by decide) (by decide) (by decide)]
  have hpe : getF (gnChanges (gnUpdated (gnDefaults o))) "errors" = some (Json.arr es) := by
    rw [getF_gnChanges_frame _ _ (by decide), getF_gnUpdated_frame _ _ (by decide),
      getF_gnDefaults_errors, he]
    simp [jsOr, truthy]
  have hpw : getF (gnChanges (gnUpdated (gnDefaults o))) "warnings" = some (Json.arr ws) := by
    rw [getF_gnChanges_frame _ _ (by decide), getF_gnUpdated_frame _ _ (by decide),
      getF_gnDefaults_warnings, hw]
    simp [jsOr, truthy]
  show (if isNumO (getF (gnChanges (gnUpdated (gnDefaults o))) "curseLevel") = true
      then numOfD (getF (gnChanges (gnUpdated (gnDefaults o))) "curseLevel")
      else curseCalc (gnChanges (gnUpdated (gnDefaults o)))) =
    JNum.val (min 100 ((es.length : ℚ) * 30 + (ws.length : ℚ) * 10))
  rw [hp]
  rw [if_neg (by simp [hc])]
  unfold curseCalc
  rw [hpe, hpw]
  simp only [lenVal, toNumber_jsOr_num]
  simp [jnMul, jnAdd, jnMin]

/-- The adversarial parsed object refuting the unconditional curse-level
invariant: errors is a non-list object whose length property is itself an
object, so the derived curse arithmetic produces NaN. -/
def c1Input : List (String × Json) :=
  [("errors", Json.obj [("length", Json.obj [])]),
   ("warnings", Json.arr []),
   ("suggestions", Json.arr []),
   ("verdict", Json.str "doom")]

/-- C1 counterexample: on `c1Input` the pipeline returns curseLevel NaN
(serialized as null by res.json), so curseLevel is not an integer in
[0,100] for every returned value. -/
theorem c1_counterexample :
    getF (reviewPipeline c1Input) "curseLevel" = some (Json.num JNum.nan) ∧
    ¬ ∃ z : ℤ, getF (reviewPipeline c1Input) "curseLevel" =
        some (Json.num (JNum.val (z : ℚ))) ∧ 0 ≤ z ∧ z ≤ 100 := by
  have h : getF (reviewPipeline c1Input) "curseLevel" = some (Json.num JNum.nan) := by rfl
  refine ⟨h, ?_⟩
  rintro ⟨z, hz, _, _⟩
  rw [h] at hz
  simp at hz

/-- C1 (amended): for every parsed provider object, the value returned by
the review pipeline has array-typed errors, warnings, suggestions and
changes, updatedCode null when the provider omitted it, a non-empty
string verdict, and — whenever the number the curse level is derived from
is an actual number (in particular whenever the provider supplied a
numeric curseLevel, or the errors and warnings fields are lists, strings
or absent) — an integer curseLevel in [0,100]. -/
theorem c1_review_result_invariant (o : List (String × Json))
    (h : curseSource o ≠ JNum.nan) :
    (∃ xs, getF (reviewPipeline o) "errors" = some (Json.arr xs)) ∧
    (∃ xs, getF (reviewPipeline o) "warnings" = some (Json.arr xs)) ∧
    (∃ xs, getF (reviewPipeline o) "suggestions" = some (Json.arr xs)) ∧
    (∃ xs, getF (reviewPipeline o) "changes" = some (Json.arr xs)) ∧
    (getF o "updatedCode" = none → getF (reviewPipeline o) "updatedCode" = some Json.null) ∧
    (∃ z : ℤ, getF (reviewPipeline o) "curseLevel" =
        some (Json.num (JNum.val (z : ℚ))) ∧ 0 ≤ z ∧ z ≤ 100) ∧
    (∃ s, getF (reviewPipeline o) "verdict" = some (Json.str s) ∧ s ≠ "") := by
  refine ⟨⟨_, getF_pipeline_errors o⟩, ⟨_, getF_pipeline_warnings o⟩,
    ⟨_, getF_pipeline_suggestions o⟩, ⟨_, getF_pipeline_changes o⟩, ?_, ?_,
    ⟨_, getF_pipeline_verdict o, verdictStr_ne_empty _⟩⟩
  · intro hu
    rw [getF_pipeline_updated, hu]
    rfl
  · obtain ⟨q, hq⟩ : ∃ q, curseSource o = JNum.val q := by
      cases hcs : curseSource o with
      | val q => exact ⟨q, rfl⟩
      | nan => exact absurd hcs h
    refine ⟨max 0 (min 100 ⌊q + 1 / 2⌋), ?_, le_max_left _ _,
      max_le (by norm_num) (min_le_left _ _)⟩
    rw [getF_pipeline_curse, hq]
    simp only [jnRound, jnMin, jnMax]
    push_cast
    rfl

/-- A plain provider object with every field absent except the verdict. -/
def c1WitnessInput : List (String × Json) := [("verdict", Json.str "clean")]

theorem c1_witness :
    (∃ xs, getF (reviewPipeline c1WitnessInput) "errors" = some (Json.arr xs)) ∧
    (∃ xs, getF (reviewPipeline c1WitnessInput) "warnings" = some (Json.arr xs)) ∧
    (∃ xs, getF (reviewPipeline c1WitnessInput) "suggestions" = some (Json.arr xs)) ∧
    (∃ xs, getF (reviewPipeline c1WitnessInput) "changes" = some (Json.arr xs)) ∧
    (getF c1WitnessInput "updatedCode" = none →
      getF (reviewPipeline c1WitnessInput) "updatedCode" = some Json.null) ∧
    (∃ z : ℤ, getF (reviewPipeline c1WitnessInput) "curseLevel" =
        some (Json.num (JNum.val (z : ℚ))) ∧ 0 ≤ z ∧ z ≤ 100) ∧
    (∃ s, getF (reviewPipeline c1WitnessInput) "verdict" = some (Json.str s) ∧ s ≠ "") :=
  c1_review_result_invariant c1WitnessInput (by decide)

/-- C3: whenever the parsed provider response lacks a numeric curseLevel
and carries list-typed errors and warnings, the pipeline result has
curseLevel min(100, errors*30 + warnings*10), which always lies in
[0,100]. -/
theorem c3_curse_derivation (o : List (String × Json)) (es ws : List Json)
    (he : getF o "errors" = some (Json.arr es)) (hw : getF o "warnings" = some (Json.arr ws))
    (hc : isNumO (getF o "curseLevel") = false) :
    getF (reviewPipeline o) "curseLevel" =
      some (Json.num (JNum.val ((min 100 (es.length * 30 + ws.length * 10) : ℕ) : ℚ))) ∧
    (0 : ℚ) ≤ ((min 100 (es.length * 30 + ws.length * 10) : ℕ) : ℚ) ∧
    ((min 100 (es.length * 30 + ws.length * 10) : ℕ) : ℚ) ≤ 100 := by
  have hcast : ((min 100 (es.length * 30 + ws.length * 10) : ℕ) : ℚ) =
      min 100 ((es.length : ℚ) * 30 + (ws.length : ℚ) * 10) := by
    push_cast
    rfl
  refine ⟨?_, Nat.cast_nonneg _, ?_⟩
  · rw [getF_pipeline_curse, curseSource_of_lists o es ws he hw hc, ← hcast,
      jnRound_val_nat]
    have h0 : (0 : ℚ) ≤ ((min 100 (es.length * 30 + ws.length * 10) : ℕ) : ℚ) :=
      Nat.cast_nonneg _
    have h100 : ((min 100 (es.length * 30 + ws.length * 10) : ℕ) : ℚ) ≤ 100 := by
      rw [hcast]; exact min_le_left _ _
    simp [jnMin, jnMax, min_eq_right h100, max_eq_right h0]
    positivity
  · rw [hcast]; exact min_le_left _ _

/-- A provider object with two errors, one warning and no curseLevel. -/
def c3WitnessInput : List (String × Json) :=
  [("errors", Json.arr [Json.obj [], Json.obj []]),
   ("warnings", Json.arr [Json.obj []]),
   ("suggestions", Json.arr []),
   ("verdict", Json.str "spooky")]

theorem c3_witness :
    getF (reviewPipeline c3WitnessInput) "curseLevel" =
      some (Json.num (JNum.val (70 : ℚ))) := by
  have h := (c3_curse_derivation c3WitnessInput
    [Json.obj [], Json.obj []] [Json.obj []] (by rfl) (by rfl) (by rfl)).1
  rw [h]
  norm_num

/-! ## POST /review request validation and error mapping

Embeds src/unnamed/part_000 lines 107 to 180.  Request body fields are
Option Json: none models an absent field (undefined). -/

/-- The first guard of the handler:
`!code || typeof code !== 'string' || code.trim().length === 0`. -/
def codeInvalid : Option Json → Bool
  | some (Json.str s) => (trimL s.data).isEmpty
  | _ => true

/-- The second guard: `!language || typeof language !== 'string'`. -/
def langInvalid : Option Json → Bool
  | some (Json.str s) => s == ""
  | _ => true

/-- `code.length` for the size guard. -/
def codeLen : Option Json → ℕ
  | some (Json.str s) => s.length
  | _ => 0

/-- The validation prefix of the POST /review handler: some 400 response,
or none when validation passes and the AI client is called. -/
def reviewValidate (code language : Option Json) : Option (ℕ × String) :=
  if codeInvalid code then some (400, "Code is required and cannot be empty")
  else if langInvalid language then some (400, "Language is required")
  else if 10000 < codeLen code then some (400, "Code is too long (maximum 10,000 characters)")
  else none

/-- The catch block of the POST /review handler, mapping the message of an
error thrown by the AI client to a status code and error body. -/
def reviewErrorMap (msg : String) : ℕ × String :=
  if hasS msg "API key" || hasS msg "Reaper could not be summoned" then
    (500, orDefaultStr msg "The Reaper could not be summoned… check your API key.")
  else if hasS msg "quota" || hasS msg "rate limit" || hasS msg "overwhelmed" ||
      hasS msg "daily quota" then
    (429, orDefaultStr msg "The Reaper is overwhelmed. Please wait a moment and try again.")
  else
    (500, orDefaultStr msg "An error occurred while reviewing the code.")

/-- The whole POST /review handler over an abstract AI-client outcome:
validate, call the client, re-normalize a success, map a failure.
The defensive non-object check on the client result is omitted because
the embedded client always yields an object. -/
def reviewHandler (code language : Option Json)
    (client : Except String (List (String × Json))) : ℕ × Json :=
  match reviewValidate code language with
  | some (st, m) => (st, Json.obj [("error", Json.str m)])
  | none =>
    match client with
    | Except.ok fields => (200, Json.obj (endpointNormalize fields))
    | Except.error msg =>
      ((reviewErrorMap msg).1, Json.obj [("error", Json.str (reviewErrorMap msg).2)])

/-- Modelled from the claim wording of C2: reject exactly when code is
missing, non-string or empty after trimming, when language is missing or
non-string, or when code exceeds 10000 characters. -/
def c2Claim400 (code language : Option Json) : Bool :=
  codeInvalid code || language.isNone || !(isStrO language) || 10000 < codeLen code

/-- The amendment C2 forces: additionally reject a present string-typed
language that is empty (falsy). -/
def langEmptyStr : Option Json → Bool
  | some (Json.str s) => s == ""
  | _ => false

/-- C2 counterexample: with code "x" and language the empty string, the
claim predicate says validation passes, but the handler rejects with 400
Language is required. -/
theorem c2_counterexample :
    c2Claim400 (some (Json.str "x")) (some (Json.str "")) = false ∧
    reviewValidate (some (Json.str "x")) (some (Json.str "")) =
      some (400, "Language is required") := by
  constructor <;> rfl

/-- Language is invalid exactly when it is missing, non-string, or an
empty string. -/
theorem langInvalid_iff (language : Option Json) :
    langInvalid language = (language.isNone || !(isStrO language) || langEmptyStr language) := by
  cases language with
  | none => rfl
  | some x => cases x <;> rfl

/-- Validation succeeds exactly when all three guards are clear. -/
theorem reviewValidate_none_iff (code language : Option Json) :
    reviewValidate code language = none ↔
      (codeInvalid code || langInvalid language || decide (10000 < codeLen code)) = false := by
  unfold reviewValidate
  by_cases h1 : codeInvalid code <;> by_cases h2 : langInvalid language <;>
    by_cases h3 : 10000 < codeLen code <;> simp [h1, h2, h3]

/-- The amended claim guard coincides with the guards of the handler. -/
theorem c2_guard_eq (code language : Option Json) :
    (c2Claim400 code language || langEmptyStr language) =
      (codeInvalid code || langInvalid language || decide (10000 < codeLen code)) := by
  unfold c2Claim400
  rw [langInvalid_iff]
  simp [Bool.or_assoc, Bool.or_comm, Bool.or_left_comm]

/-- C2 (amended): POST /api/review returns 400 before consulting the AI
client exactly when code is missing, non-string or empty after trimming
(with the fixed code error body), when language is missing, non-string or
an empty string, or when code exceeds 10000 characters; otherwise
validation passes and the client outcome determines the response. -/
theorem c2_validation (code language : Option Json) :
    (reviewValidate code language = none ↔
      (c2Claim400 code language || langEmptyStr language) = false) ∧
    (codeInvalid code = true →
      reviewValidate code language = some (400, "Code is required and cannot be empty")) ∧
    (reviewValidate code language ≠ none →
      ∀ c₁ c₂, reviewHandler code language c₁ = reviewHandler code language c₂) ∧
    (reviewValidate code language = none →
      ∀ fields, reviewHandler code language (Except.ok fields) =
        (200, Json.obj (endpointNormalize fields))) := by
  refine ⟨?_, ?_, ?_, ?_⟩
  · rw [reviewValidate_none_iff, c2_guard_eq]
  · intro h
    simp [reviewValidate, h]
  · intro h c₁ c₂
    unfold reviewHandler
    cases hv : reviewValidate code language with
    | none => exact absurd hv h
    | some e => rfl
  · intro h fields
    simp [reviewHandler, h]

theorem c2_witness :
    reviewValidate (some (Json.str "print(1)")) (some (Json.str "python")) = none ∧
    reviewHandler (some (Json.str "print(1)")) (some (Json.str "python"))
        (Except.ok [("verdict", Json.str "fine")]) =
      (200, Json.obj (endpointNormalize [("verdict", Json.str "fine")])) := by
  have hv : reviewValidate (some (Json.str "print(1)")) (some (Json.str "python")) = none := by
    rfl
  exact ⟨hv, (c2_validation (some (Json.str "print(1)")) (some (Json.str "python"))).2.2.2 hv
    [("verdict", Json.str "fine")]⟩

/-- C10: whenever code passes its own guard, every falsy language value —
the empty string included — is rejected with 400 Language is required. -/
theorem c10_falsy_language_rejected (code language : Option Json)
    (hcode : codeInvalid code = false) (hlang : truthyO language = false) :
    reviewValidate code language = some (400, "Language is required") := by
  have hli : langInvalid language = true := by
    cases language with
    | none => rfl
    | some x =>
      cases x with
      | str s =>
        simp only [truthyO, truthy] at hlang
        simp only [langInvalid]
        simpa using hlang
      | _ => rfl
  simp [reviewValidate, hcode, hli]

theorem c10_witness :
    reviewValidate (some (Json.str "x")) (some (Json.str "")) =
      some (400, "Language is required") :=
  c10_falsy_language_rejected (some (Json.str "x")) (some (Json.str "")) (by rfl) (by rfl)

/-! ## Gemini client error classification

Embeds the catch block of reviewCode, src/unnamed/part_001 lines 157 to
200, including the retry-delay extraction regex of the quota branch. -/

/-- Case-insensitive literal match at the head of a character list. -/
def ciStarts : List Char → List Char → Bool
  | [], _ => true
  | _ :: _, [] => false
  | p :: ps, c :: cs => (p.toLower == c.toLower) && ciStarts ps cs

/-- JavaScript `parseFloat` on a run of digits and points: leading digits,
optionally one point and more digits; everything after a second point is
ignored; none stands for NaN. -/
def parseFloatRun (l : List Char) : Option ℚ :=
  let ip := l.takeWhile Char.isDigit
  let rest := l.dropWhile Char.isDigit
  match rest with
  | [] => if ip.isEmpty then none else some (digitsVal ip)
  | c :: t =>
    if c == '.' then
      let fp := t.takeWhile Char.isDigit
      if ip.isEmpty && fp.isEmpty then none
      else some (digitsVal ip + digitsVal fp / 10 ^ fp.length)
    else if ip.isEmpty then none else some (digitsVal ip)

/-- Try the regex `<pat>([\d.]+)s` case-insensitively at this position:
the literal, then a maximal digit-or-point run, then an s. -/
def retryAt (pat l : List Char) : Option (List Char) :=
  if ciStarts pat l then
    let rest := l.drop pat.length
    let run := rest.takeWhile (fun c => c.isDigit || c == '.')
    if run.isEmpty then none
    else
      match rest.drop run.length with
      | c :: _ => if c.toLower == 's' then some run else none
      | [] => none
  else none

/-- Leftmost match of the retry pattern over the whole text. -/
def retryScan (pat : List Char) : List Char → Option (List Char)
  | [] => none
  | c :: t => (retryAt pat (c :: t)).orElse (fun _ => retryScan pat t)

/-- `error.message.match(/retry in ([\d.]+)s/i) ||
error.message.match(/Please retry in ([\d.]+)s/i)`, captured group fed to
`Math.ceil(parseFloat(...))`; none stands for null or NaN. -/
def retrySecondsOf (msg : String) : Option ℤ :=
  match (retryScan "retry in ".data msg.data).orElse
      (fun _ => retryScan "Please retry in ".data msg.data) with
  | some run => (parseFloatRun run).map (fun q => Int.ceil q)
  | none => none

/-- JavaScript truthiness selection on the retry seconds (0 and NaN are
falsy). -/
def waitOr (r : Option ℤ) (f : ℤ → String) (d : String) : String :=
  match r with
  | some n => if n = 0 then d else f n
  | none => d

/-- The catch block of reviewCode: classify a thrown message by substring
matching and re-throw a domain message.  modelName is the configured
Gemini model name interpolated into the model-not-available message. -/
def geminiCatch (modelName msg : String) : String :=
  if hasS msg "API key" || hasS msg "GEMINI_API_KEY" || hasS msg "API_KEY_NOT_VALID" then
    "The Reaper could not be summoned… check your API key."
  else if hasS msg "quota" || hasS msg "429" || hasS msg "Too Many Requests" ||
      hasS msg "RESOURCE_EXHAUSTED" then
    let rs := retrySecondsOf msg
    if hasS msg "free_tier_requests" || hasS msg "FreeTier" || hasS msg "limit: 200" then
      "The Reaper has reached its daily quota limit." ++
        waitOr rs (fun n => " Please wait " ++ toString n ++ " seconds, or try again tomorrow.")
          " You have reached the free tier daily limit of 200 requests. Please try again tomorrow or upgrade your plan."
    else
      "The Reaper is overwhelmed." ++
        waitOr rs (fun n => " Please wait " ++ toString n ++ " seconds before trying again.")
          " Please wait a moment and try again."
  else if hasS msg "rate limit" || hasS msg "RATE_LIMIT_EXCEEDED" then
    "The Reaper is overwhelmed. Please wait a moment and try again."
  else if hasS msg "model" || hasS msg "MODEL_NOT_FOUND" || hasS msg "404 Not Found" ||
      hasS msg "is not found" then
    "The Gemini model \"" ++ modelName ++
      "\" is not available for your API key. Please check your API key permissions and ensure gemini-2.0-flash is available."
  else
    "The Reaper could not be summoned: " ++ orDefaultStr msg "Unknown error"

/-- C8 counterexample: reviewCode wraps an unclassified upstream failure
whose text mentions overwhelmed into its generic message; that message
contains overwhelmed, yet the endpoint maps it to 500, not 429, because
the Reaper-could-not-be-summoned check takes precedence. -/
theorem c8_counterexample :
    geminiCatch "gemini-2.0-flash" "backend overwhelmed" =
      "The Reaper could not be summoned: backend overwhelmed" ∧
    hasS "The Reaper could not be summoned: backend overwhelmed" "overwhelmed" = true ∧
    reviewErrorMap "The Reaper could not be summoned: backend overwhelmed" =
      (500, "The Reaper could not be summoned: backend overwhelmed") ∧
    (reviewErrorMap "The Reaper could not be summoned: backend overwhelmed").1 ≠ 429 := by
  refine ⟨by rfl, by rfl, by rfl, by decide⟩

/-- C8 (amended): a failure message from the AI client that contains
quota, rate limit, overwhelmed or daily quota is answered with 429 and the
message itself, unless it also contains API key or Reaper could not be
summoned, which are checked first and map to 500; messages matching none
of the substrings map to 500 with the raw message. -/
theorem c8_error_mapping (msg : String) :
    ((hasS msg "API key" || hasS msg "Reaper could not be summoned") = false →
      (hasS msg "quota" || hasS msg "rate limit" || hasS msg "overwhelmed" ||
        hasS msg "daily quota") = true →
      reviewErrorMap msg = (429, msg)) ∧
    ((hasS msg "API key" || hasS msg "Reaper could not be summoned") = true →
      (reviewErrorMap msg).1 = 500) ∧
    ((hasS msg "API key" || hasS msg "Reaper could not be summoned") = false →
      (hasS msg "quota" || hasS msg "rate limit" || hasS msg "overwhelmed" ||
        hasS msg "daily quota") = false →
      reviewErrorMap msg = (500, orDefaultStr msg "An error occurred while reviewing the code.")) := by
  refine ⟨?_, ?_, ?_⟩
  · intro h1 h2
    have hne : msg ≠ "" := by
      intro he
      subst he
      exact absurd h2 (by decide)
    unfold reviewErrorMap
    rw [if_neg (by simp [h1]), if_pos h2]
    simp [orDefaultStr, hne]
  · intro h
    unfold reviewErrorMap
    rw [if_pos h]
  · intro h1 h2
    unfold reviewErrorMap
    rw [if_neg (by simp [h1]), if_neg (by simp [h2])]

theorem c8_witness :
    reviewErrorMap "The Reaper is overwhelmed. Please wait a moment and try again." =
      (429, "The Reaper is overwhelmed. Please wait a moment and try again.") :=
  (c8_error_mapping "The Reaper is overwhelmed. Please wait a moment and try again.").1
    (by rfl) (by rfl)

/-! ## JSON extraction from the raw model text

Embeds src/unnamed/part_001 lines 80 to 123: the fenced-code-block regex,
the leading/trailing strip, the outermost-braces regex, and the fallback
construction of the parse-failure path.  Brace and backtick characters
are named constants. -/

def lbrace : Char := Char.ofNat 123

def rbrace : Char := Char.ofNat 125

def btick : Char := Char.ofNat 96

/-- The three-backtick fence. -/
def fenceL : List Char := [btick, btick, btick]

def dropWs (l : List Char) : List Char := l.dropWhile isWs

/-- After the candidate closing brace: whitespace then a fence
(the regex tail of a greedy body). -/
def fenceCloseOk (l : List Char) : Bool := fenceL.isPrefixOf (dropWs l)

/-- Index of the last closing brace whose tail matches the fence pattern
(the greedy body of the capture group). -/
def findLastClose (l : List Char) : Option ℕ :=
  (List.range l.length).reverse.find?
    (fun i => (l.getD i ' ' == rbrace) && fenceCloseOk (l.drop (i + 1)))

/-- The capture group at a candidate body start: an opening brace, then
the greedy span up to the last valid closing brace. -/
def bodyAt : List Char → Option (List Char)
  | [] => none
  | c :: t =>
    if c == lbrace then (findLastClose (c :: t)).map (fun i => (c :: t).take (i + 1))
    else none

/-- Whitespace then the braced capture group. -/
def fenceAttempt (rest : List Char) : Option (List Char) := bodyAt (dropWs rest)

/-- Try the fenced-block regex anchored at this position: a fence,
an optional json tag (tried first, as the greedy option does), whitespace,
then the braced group closed by whitespace and a fence. -/
def matchFenceAtPos (l : List Char) : Option (List Char) :=
  if fenceL.isPrefixOf l then
    let r := l.drop 3
    (if ("json".data).isPrefixOf r then fenceAttempt (r.drop 4) else none).orElse
      (fun _ => fenceAttempt r)
  else none

/-- Leftmost match of the fenced-block regex over the whole text. -/
def matchFence : List Char → Option (List Char)
  | [] => none
  | c :: t => (matchFenceAtPos (c :: t)).orElse (fun _ => matchFence t)

/-- The two replaces of lines 91 and 92: drop everything before the first
opening brace and everything after the last closing brace. -/
def stripBraces (c : List Char) : List Char :=
  let c1 := c.dropWhile (fun ch => !(ch == lbrace))
  (c1.reverse.dropWhile (fun ch => !(ch == rbrace))).reverse

/-- The outermost-braces regex of line 96: from the first opening brace
greedily to the last closing brace, if both exist in that order. -/
def outerBraces (l : List Char) : Option (List Char) :=
  let l2 := l.dropWhile (fun ch => !(ch == lbrace))
  let l3 := (l2.reverse.dropWhile (fun ch => !(ch == rbrace))).reverse
  match l3 with
  | [] => none
  | _ :: _ => some l3

def noJsonMsg : String := "No JSON object found in response"

/-- The JSON isolation step of reviewCode, translated from the source:
trim, prefer a fenced block, otherwise strip to the brace span, otherwise
regex-match the outermost braces, otherwise fail. -/
def extractJson (text : List Char) : Except String (List Char) :=
  let cleaned := trimL text
  match matchFence cleaned with
  | some g => Except.ok g
  | none =>
    let c2 := stripBraces cleaned
    if [lbrace].isPrefixOf c2 then Except.ok c2
    else
      match outerBraces c2 with
      | some g => Except.ok g
      | none => Except.error noJsonMsg

/-- First strategy of the specification: a fenced code block containing a
braced object. -/
def fencedStrategy (t : List Char) : Option (List Char) := matchFence t

/-- Second strategy: strip leading characters up to the first opening
brace and trailing characters after the last closing brace. -/
def stripStrategy (t : List Char) : List Char := stripBraces t

/-- Third strategy: regex-match the outermost braced span. -/
def outermostStrategy (t : List Char) : Option (List Char) := outerBraces t

/-- The extraction as the specification words it: the ordered strategy
chain with the failure message when none isolates an object. -/
def extractJsonSpec (text : List Char) : Except String (List Char) :=
  let cleaned := trimL text
  match fencedStrategy cleaned with
  | some g => Except.ok g
  | none =>
    let s := stripStrategy cleaned
    if [lbrace].isPrefixOf s then Except.ok s
    else
      match outermostStrategy s with
      | some g => Except.ok g
      | none => Except.error noJsonMsg

/-- C5: the JSON-extraction step applies exactly the specified strategy
order — fenced block first, then brace stripping, then the outermost
braces regex when the stripped text does not start with an opening brace —
and fails with the parse error when none of them isolates an object. -/
theorem c5_extraction_strategy_order :
    (∀ t, extractJson t = extractJsonSpec t) ∧
    (∀ t, fencedStrategy (trimL t) = none →
      ([lbrace].isPrefixOf (stripStrategy (trimL t))) = false →
      outermostStrategy (stripStrategy (trimL t)) = none →
      extractJson t = Except.error noJsonMsg) := by
  constructor
  · intro t
    rfl
  · intro t h1 h2 h3
    have h1' : matchFence (trimL t) = none := h1
    have h2' : [lbrace].isPrefixOf (stripBraces (trimL t)) = false := h2
    have h3' : outerBraces (stripBraces (trimL t)) = none := h3
    unfold extractJson
    simp only [h1', h2', h3', Bool.false_eq_true, if_false]

theorem c5_witness :
    extractJson ("no braces at all".data) = Except.error noJsonMsg :=
  c5_extraction_strategy_order.2 ("no braces at all".data) (by rfl) (by rfl) (by rfl)

/-- The message of the error thrown by the inner parse catch. -/
def parseFailMsg : String :=
  "Failed to parse AI response. Please ensure your code is valid and try again."

/-- The fallback object the inner catch synthesizes before re-throwing
(lines 113 to 119); it is only ever logged. -/
def geminiFallback : List (String × Json) :=
  [("errors", Json.arr []),
   ("warnings", Json.arr [Json.obj [("line", Json.num (JNum.val 1)),
      ("message", Json.str "Failed to parse AI response. Please check the code and try again.")]]),
   ("suggestions", Json.arr []),
   ("verdict", Json.str "The Reaper encountered an issue analyzing your code."),
   ("curseLevel", Json.num (JNum.val 50))]

/-- The extract-and-parse step of reviewCode over an abstract JSON parser
jp (JSON.parse restricted to the object results the braced input can
yield): both the extraction failure throw and a parse failure land in the
catch that re-throws the fixed parse-failure message. -/
def parseStage (jp : List Char → Option (List (String × Json))) (text : List Char) :
    Except String (List (String × Json)) :=
  match extractJson text with
  | Except.ok g =>
    match jp g with
    | some fields => Except.ok fields
    | none => Except.error parseFailMsg
  | Except.error _ => Except.error parseFailMsg

/-- reviewCode from the raw model text on: parse, normalize on success,
classify the thrown message in the outer catch on failure. -/
def reviewCodeOnText (modelName : String) (jp : List Char → Option (List (String × Json)))
    (text : List Char) : Except String (List (String × Json)) :=
  match parseStage jp text with
  | Except.ok fields => Except.ok (geminiNormalize fields)
  | Except.error m => Except.error (geminiCatch modelName m)

/-- C4: whenever no JSON object can be parsed from the raw model output,
reviewCode fails with the parse error (re-wrapped by the outer catch into
its generic message); the synthesized fallback object is never the return
value — no unparsable output yields a successful return. -/
theorem c4_parse_failure_never_fallback (modelName : String)
    (jp : List Char → Option (List (String × Json))) (text : List Char)
    (h : parseStage jp text = Except.error parseFailMsg) :
    reviewCodeOnText modelName jp text =
      Except.error ("The Reaper could not be summoned: " ++ parseFailMsg) ∧
    reviewCodeOnText modelName jp text ≠ Except.ok geminiFallback ∧
    ∀ v, reviewCodeOnText modelName jp text ≠ Except.ok v := by
  have hmap : geminiCatch modelName parseFailMsg =
      "The Reaper could not be summoned: " ++ parseFailMsg := by
    unfold geminiCatch
    rw [if_neg (by decide), if_neg (by decide), if_neg (by decide), if_neg (by decide)]
    rfl
  have hres : reviewCodeOnText modelName jp text =
      Except.error ("The Reaper could not be summoned: " ++ parseFailMsg) := by
    unfold reviewCodeOnText
    rw [h]
    show Except.error (geminiCatch modelName parseFailMsg) = _
    rw [hmap]
  exact ⟨hres, by rw [hres]; simp, fun v => by rw [hres]; simp⟩

theorem c4_witness :
    reviewCodeOnText "gemini-2.0-flash" (fun _ => none) ("hello world".data) =
      Except.error ("The Reaper could not be summoned: " ++ parseFailMsg) :=
  (c4_parse_failure_never_fallback "gemini-2.0-flash" (fun _ => none)
    ("hello world".data) (by rfl)).1

/-! ## GitHub OAuth callback

Embeds src/server/src/routes/github.js lines 62 to 129. -/

/-- Uppercase hexadecimal digit. -/
def hexDigitU (n : ℕ) : Char :=
  if n < 10 then Char.ofNat (48 + n) else Char.ofNat (55 + n)

/-- UTF-8 bytes of a character (as natural numbers). -/
def utf8Bytes (c : Char) : List ℕ :=
  let n := c.toNat
  if n < 128 then [n]
  else if n < 2048 then [192 + n / 64, 128 + n % 64]
  else if n < 65536 then [224 + n / 4096, 128 + (n / 64) % 64, 128 + n % 64]
  else [240 + n / 262144, 128 + (n / 4096) % 64, 128 + (n / 64) % 64, 128 + n % 64]

/-- The characters encodeURIComponent leaves unescaped. -/
def isUriUnescaped (c : Char) : Bool :=
  c.isAlpha || c.isDigit || c == '-' || c == '_' || c == '.' || c == '!' ||
    c == '~' || c == '*' || c == Char.ofNat 39 || c == '(' || c == ')'

/-- Percent-encode one character. -/
def pctEncode (c : Char) : List Char :=
  if isUriUnescaped c then [c]
  else (utf8Bytes c).flatMap (fun b => ['%', hexDigitU (b / 16), hexDigitU (b % 16)])

/-- JavaScript encodeURIComponent. -/
def encodeURIComponent (s : String) : String := String.mk (s.data.flatMap pctEncode)

/-- OAuth configuration read from the environment: client id, client
secret, front-end origin. -/
structure OauthEnv where
  clientId : Option String
  clientSecret : Option String
  clientUrl : Option String

/-- Truthiness of an environment value or query parameter (absent or
empty is falsy). -/
def strFalsy : Option String → Bool
  | none => true
  | some s => s == ""

/-- `a || d` on such a value. -/
def orElseStr (v : Option String) (d : String) : String :=
  match v with
  | some s => if s == "" then d else s
  | none => d

/-- The parsed token-endpoint payload. -/
structure TokenData where
  error : Option String
  errorDesc : Option String
  accessToken : Option String

/-- The outcome of the token-exchange fetch: a thrown exception (network
failure or body parse failure, both caught by the same catch) or an HTTP
response with its parsed JSON payload. -/
inductive ExchangeOutcome where
  | throws (msg : String)
  | resp (status : ℕ) (statusText : String) (data : TokenData)

/-- An HTTP response of the callback route: a redirect or a JSON body.
The JSON constructor exists so that always-redirects is a statement about
behaviour, not about the type. -/
inductive HttpOut where
  | redirect (url : String)
  | jsonOut (status : ℕ) (body : String)

/-- GET /api/github/callback. -/
def callbackHandler (env : OauthEnv) (code : Option String) (ex : ExchangeOutcome) : HttpOut :=
  let frontendUrl := orElseStr env.clientUrl "http://localhost:5173"
  if strFalsy code then
    HttpOut.redirect (frontendUrl ++ "#error=" ++
      encodeURIComponent "Missing authorization code from GitHub")
  else if strFalsy env.clientId || strFalsy env.clientSecret then
    HttpOut.redirect (frontendUrl ++ "#error=" ++
      encodeURIComponent "GitHub OAuth not configured. Please set GITHUB_CLIENT_ID and GITHUB_CLIENT_SECRET in your .env file.")
  else
    match ex with
    | ExchangeOutcome.throws m =>
      HttpOut.redirect (frontendUrl ++ "#error=" ++
        encodeURIComponent ("GitHub OAuth failed: " ++ m))
    | ExchangeOutcome.resp status statusText data =>
      if !(200 ≤ status && status ≤ 299) then
        HttpOut.redirect (frontendUrl ++ "#error=" ++
          encodeURIComponent ("GitHub OAuth failed: " ++ toString status ++ " " ++ statusText))
      else if !(strFalsy data.error) || strFalsy data.accessToken then
        let errorDescription :=
          orElseStr data.errorDesc (orElseStr data.error "No access token received")
        let errorMsg :=
          if hasS errorDescription "client_id" || hasS errorDescription "client_secret" then
            "GitHub OAuth configuration error: Please check your GITHUB_CLIENT_ID and GITHUB_CLIENT_SECRET in your .env file."
          else if hasS errorDescription "redirect_uri" then
            "GitHub OAuth redirect URI mismatch: Please ensure GITHUB_REDIRECT_URI matches your GitHub app settings."
          else "GitHub OAuth failed: " ++ errorDescription
        HttpOut.redirect (frontendUrl ++ "#error=" ++ encodeURIComponent errorMsg)
      else
        HttpOut.redirect (frontendUrl ++ "#token=" ++ data.accessToken.getD "")

/-- The URL fragment the callback settles on, case by case. -/
def fragOf (env : OauthEnv) (code : Option String) (ex : ExchangeOutcome) : String :=
  if strFalsy code then
    "error=" ++ encodeURIComponent "Missing authorization code from GitHub"
  else if strFalsy env.clientId || strFalsy env.clientSecret then
    "error=" ++
      encodeURIComponent "GitHub OAuth not configured. Please set GITHUB_CLIENT_ID and GITHUB_CLIENT_SECRET in your .env file."
  else
    match ex with
    | ExchangeOutcome.throws m =>
      "error=" ++ encodeURIComponent ("GitHub OAuth failed: " ++ m)
    | ExchangeOutcome.resp status statusText data =>
      if !(200 ≤ status && status ≤ 299) then
        "error=" ++
          encodeURIComponent ("GitHub OAuth failed: " ++ toString status ++ " " ++ statusText)
      else if !(strFalsy data.error) || strFalsy data.accessToken then
        let errorDescription :=
          orElseStr data.errorDesc (orElseStr data.error "No access token received")
        let errorMsg :=
          if hasS errorDescription "client_id" || hasS errorDescription "client_secret" then
            "GitHub OAuth configuration error: Please check your GITHUB_CLIENT_ID and GITHUB_CLIENT_SECRET in your .env file."
          else if hasS errorDescription "redirect_uri" then
            "GitHub OAuth redirect URI mismatch: Please ensure GITHUB_REDIRECT_URI matches your GitHub app settings."
          else "GitHub OAuth failed: " ++ errorDescription
        "error=" ++ encodeURIComponent errorMsg
      else
        "token=" ++ data.accessToken.getD ""

/-- Splitting a literal prefix off a concatenation. -/
theorem redirect_frag (a pre e : String) :
    a ++ ("#" ++ pre) ++ e = a ++ "#" ++ (pre ++ e) := by
  rw [← String.append_assoc a "#" pre, String.append_assoc]

/-- The callback never answers anything but a redirect to the front-end
origin carrying its fragment. -/
theorem callbackHandler_eq (env : OauthEnv) (code : Option String) (ex : ExchangeOutcome) :
    callbackHandler env code ex =
      HttpOut.redirect (orElseStr env.clientUrl "http://localhost:5173" ++ "#" ++
        fragOf env code ex) := by
  unfold callbackHandler fragOf
  by_cases hc : strFalsy code = true
  · rw [if_pos hc, if_pos hc]
    show HttpOut.redirect (_ ++ ("#" ++ "error=") ++ _) = _
    rw [redirect_frag]
  · rw [if_neg hc, if_neg hc]
    by_cases hid : (strFalsy env.clientId || strFalsy env.clientSecret) = true
    · rw [if_pos hid, if_pos hid]
      show HttpOut.redirect (_ ++ ("#" ++ "error=") ++ _) = _
      rw [redirect_frag]
    · rw [if_neg hid, if_neg hid]
      cases ex with
      | throws m =>
        show HttpOut.redirect (_ ++ ("#" ++ "error=") ++ _) = _
        rw [redirect_frag]
      | resp st stx d =>
        dsimp only
        by_cases hst : (!(200 ≤ st && st ≤ 299)) = true
        · rw [if_pos hst, if_pos hst]
          show HttpOut.redirect (_ ++ ("#" ++ "error=") ++ _) = _
          rw [redirect_frag]
        · rw [if_neg hst, if_neg hst]
          by_cases herr : (!(strFalsy d.error) || strFalsy d.accessToken) = true
          · rw [if_pos herr, if_pos herr]
            show HttpOut.redirect (_ ++ ("#" ++ "error=") ++ _) = _
            rw [redirect_frag]
          · rw [if_neg herr, if_neg herr]
            show HttpOut.redirect (_ ++ ("#" ++ "token=") ++ _) = _
            rw [redirect_frag]

/-- C9: every terminal response of the OAuth callback is a redirect to
the configured front-end origin with the outcome in the URL fragment:
a missing code parameter yields the fragment
error=Missing%20authorization%20code%20from%20GitHub, a successful
exchange puts the access token in the fragment (never a query parameter),
and no input produces a non-redirect response. -/
theorem c9_callback_always_redirects (env : OauthEnv) (code : Option String)
    (ex : ExchangeOutcome) :
    ∃ frag, callbackHandler env code ex =
        HttpOut.redirect (orElseStr env.clientUrl "http://localhost:5173" ++ "#" ++ frag) ∧
      (strFalsy code = true →
        frag = "error=Missing%20authorization%20code%20from%20GitHub") ∧
      (∀ st stx d, ex = ExchangeOutcome.resp st stx d → strFalsy code = false →
        strFalsy env.clientId = false → strFalsy env.clientSecret = false →
        (200 ≤ st && st ≤ 299) = true → strFalsy d.error = true →
        strFalsy d.accessToken = false →
        frag = "token=" ++ d.accessToken.getD "") := by
  refine ⟨fragOf env code ex, callbackHandler_eq env code ex, ?_, ?_⟩
  · intro hc
    unfold fragOf
    rw [if_pos hc]
    rfl
  · intro st stx d hex hcf hci hcs hok hde hda
    subst hex
    unfold fragOf
    rw [if_neg (by simp [hcf]), if_neg (by simp [hci, hcs])]
    dsimp only
    rw [if_neg (by simp [hok]), if_neg (by simp [hde, hda])]

theorem c9_witness :
    callbackHandler ⟨none, none, none⟩ none (ExchangeOutcome.throws "boom") =
      HttpOut.redirect
        "http://localhost:5173#error=Missing%20authorization%20code%20from%20GitHub" := by
  obtain ⟨frag, heq, hmiss, _⟩ :=
    c9_callback_always_redirects ⟨none, none, none⟩ none (ExchangeOutcome.throws "boom")
  rw [heq, hmiss (by rfl)]
  rfl

/-! ## GitHub pull-request automation

Embeds src/server/src/routes/github.js lines 209 to 348: the POST
/pull-request handler and its five sequential remote calls.  The remote
side is an oracle of per-step responses; the handler additionally records
the calls it issues, so that claims about which steps run and which
branches they target are statements about the call trace.  Body fields
are modelled as strings, the type the PullRequestSpec data model
mandates. -/

/-- The request body of POST /api/github/pull-request. -/
structure PrBody where
  accessToken : String
  owner : String
  repo : String
  filePath : String
  improvedCode : String
  category : String
  explanation : String

/-- The remote repository as the oracle sees it: its actual default
branch (never consulted by the handler) and the responses of the five
steps. -/
structure RemoteEnv where
  defaultBranch : String
  refStatus : ℕ
  refSha : String
  createStatus : ℕ
  fileStatus : ℕ
  fileSha : String
  commitStatus : ℕ
  prStatus : ℕ
  prUrl : String
  prNumber : ℕ
  prErrMsg : Option String

/-- A remote call the handler issues, with the parameters that matter. -/
inductive GhCall where
  | getRef (owner repo branch : String)
  | createRef (owner repo ref sha : String)
  | getFile (owner repo path : String)
  | putFile (owner repo path message content sha branch : String)
  | createPull (owner repo title head base body : String)
deriving DecidableEq, Repr

/-- A JSON error response of the handler. -/
structure JsonResp where
  status : ℕ
  error : String
  message : Option String
deriving DecidableEq, Repr

/-- The outcome of the handler. -/
inductive PrOut where
  | errResp (r : JsonResp)
  | success (url : String) (number : ℕ) (branch : String)
deriving DecidableEq, Repr

/-- `Response.ok` of fetch. -/
def httpOk (s : ℕ) : Bool := 200 ≤ s && s ≤ 299

/-- The base64 alphabet. -/
def b64Alphabet : List Char :=
  "ABCDEFGHIJKLMNOPQRSTUVWXYZabcdefghijklmnopqrstuvwxyz0123456789+/".data

def b64Char (n : ℕ) : Char := b64Alphabet.getD n (Char.ofNat 65)

/-- Encode a chunk of at most three bytes. -/
def b64Chunk : List ℕ → List Char
  | [a, b, c] =>
    [b64Char (a / 4), b64Char ((a % 4) * 16 + b / 16), b64Char ((b % 16) * 4 + c / 64),
      b64Char (c % 64)]
  | [a, b] =>
    [b64Char (a / 4), b64Char ((a % 4) * 16 + b / 16), b64Char ((b % 16) * 4), Char.ofNat 61]
  | [a] => [b64Char (a / 4), b64Char ((a % 4) * 16), Char.ofNat 61, Char.ofNat 61]
  | _ => []

def b64Go : List ℕ → List Char
  | a :: b :: c :: rest => b64Chunk [a, b, c] ++ b64Go rest
  | rest => b64Chunk rest

/-- `Buffer.from(s).toString('base64')`: base64 of the UTF-8 bytes. -/
def base64encode (s : String) : String := String.mk (b64Go (s.data.flatMap utf8Bytes))

/-- POST /api/github/pull-request over the remote oracle; now is
`Date.now()`.  Returns the response together with the list of remote
calls issued, in order. -/
def pullRequestHandler (b : PrBody) (env : RemoteEnv) (now : ℕ) : PrOut × List GhCall :=
  if b.accessToken = "" || b.owner = "" || b.repo = "" || b.filePath = "" ||
      b.improvedCode = "" || b.category = "" || b.explanation = "" then
    (PrOut.errResp ⟨400, "Missing required fields", none⟩, [])
  else
    let branchName := "aireviewmate-update-" ++ toString now
    let c1 := [GhCall.getRef b.owner b.repo "main"]
    if env.refStatus = 401 then
      (PrOut.errResp ⟨401, "Invalid or expired token", some "Please re-authenticate with GitHub"⟩, c1)
    else if !(httpOk env.refStatus) then
      (PrOut.errResp ⟨500, "Failed to create pull request",
        some ("Failed to fetch main branch: " ++ toString env.refStatus)⟩, c1)
    else
      let c2 := c1 ++ [GhCall.createRef b.owner b.repo ("refs/heads/" ++ branchName) env.refSha]
      if env.createStatus = 409 then
        (PrOut.errResp ⟨409, "Branch conflict",
          some "A branch with this name already exists. Please try again."⟩, c2)
      else if !(httpOk env.createStatus) then
        (PrOut.errResp ⟨500, "Failed to create pull request",
          some ("Failed to create branch: " ++ toString env.createStatus)⟩, c2)
      else
        let c3 := c2 ++ [GhCall.getFile b.owner b.repo b.filePath]
        if !(httpOk env.fileStatus) then
          (PrOut.errResp ⟨500, "Failed to create pull request",
            some ("Failed to fetch file: " ++ toString env.fileStatus)⟩, c3)
        else
          let c4 := c3 ++ [GhCall.putFile b.owner b.repo b.filePath
            ("AIReviewMate: " ++ b.category) (base64encode b.improvedCode) env.fileSha branchName]
          if !(httpOk env.commitStatus) then
            (PrOut.errResp ⟨500, "Failed to create pull request",
              some ("Failed to commit code: " ++ toString env.commitStatus)⟩, c4)
          else
            let c5 := c4 ++ [GhCall.createPull b.owner b.repo
              ("AI Review Suggestion: " ++ b.category) branchName "main" b.explanation]
            if !(httpOk env.prStatus) then
              (PrOut.errResp ⟨500, "Failed to create pull request",
                some ("Failed to create PR: " ++ toString env.prStatus ++ " - " ++
                  (env.prErrMsg.getD "Unknown error"))⟩, c5)
            else
              (PrOut.success env.prUrl env.prNumber branchName, c5)

/-- A fully successful remote for a repository whose default branch is
develop, not main. -/
def c6Remote : RemoteEnv :=
  ⟨"develop", 200, "abc123", 201, 200, "def456", 200, 201, "url", 7, none⟩

def c6Body : PrBody := ⟨"tok", "alice", "proj", "src/a.js", "x", "Bug Fix", "haunted verdict"⟩

/-- C6 counterexample: on a repository whose default branch is develop,
step (a) reads the head of the branch literally named main and step (e)
opens the pull request with base main — not the default branch. -/
theorem c6_counterexample :
    (pullRequestHandler c6Body c6Remote 5).2 =
      [GhCall.getRef "alice" "proj" "main",
       GhCall.createRef "alice" "proj" "refs/heads/aireviewmate-update-5" "abc123",
       GhCall.getFile "alice" "proj" "src/a.js",
       GhCall.putFile "alice" "proj" "src/a.js" "AIReviewMate: Bug Fix" "eA==" "def456"
         "aireviewmate-update-5",
       GhCall.createPull "alice" "proj" "AI Review Suggestion: Bug Fix"
         "aireviewmate-update-5" "main" "haunted verdict"] ∧
    c6Remote.defaultBranch = "develop" ∧
    ("main" : String) ≠ "develop" := by
  refine ⟨by rfl, by rfl, by decide⟩

/-- C6 (amended): on every valid request whose five remote steps succeed,
step (a) reads the head commit SHA of the branch literally named main and
step (e) opens the pull request from the new branch to base main — the
literal main, regardless of the repository default branch — with title
AI Review Suggestion: followed by the category and the explanation field
(which the client fills with the review verdict) as the body. -/
theorem c6_pull_request_targets_main (b : PrBody) (env : RemoteEnv) (now : ℕ)
    (h1 : b.accessToken ≠ "") (h2 : b.owner ≠ "") (h3 : b.repo ≠ "") (h4 : b.filePath ≠ "")
    (h5 : b.improvedCode ≠ "") (h6 : b.category ≠ "") (h7 : b.explanation ≠ "")
    (hr : httpOk env.refStatus = true) (hcr : httpOk env.createStatus = true)
    (hf : httpOk env.fileStatus = true) (hcm : httpOk env.commitStatus = true)
    (hp : httpOk env.prStatus = true) :
    pullRequestHandler b env now =
      (PrOut.success env.prUrl env.prNumber ("aireviewmate-update-" ++ toString now),
       [GhCall.getRef b.owner b.repo "main",
        GhCall.createRef b.owner b.repo
          ("refs/heads/" ++ ("aireviewmate-update-" ++ toString now)) env.refSha,
        GhCall.getFile b.owner b.repo b.filePath,
        GhCall.putFile b.owner b.repo b.filePath ("AIReviewMate: " ++ b.category)
          (base64encode b.improvedCode) env.fileSha ("aireviewmate-update-" ++ toString now),
        GhCall.createPull b.owner b.repo ("AI Review Suggestion: " ++ b.category)
          ("aireviewmate-update-" ++ toString now) "main" b.explanation]) := by
  have hr401 : env.refStatus ≠ 401 := by
    intro he
    rw [he] at hr
    exact absurd hr (by decide)
  have hcr409 : env.createStatus ≠ 409 := by
    intro he
    rw [he] at hcr
    exact absurd hcr (by decide)
  unfold pullRequestHandler
  rw [if_neg (by simp [h1, h2, h3, h4, h5, h6, h7])]
  rw [if_neg hr401, if_neg (by simp [hr]), if_neg hcr409, if_neg (by simp [hcr]),
    if_neg (by simp [hf]), if_neg (by simp [hcm]), if_neg (by simp [hp])]
  rfl

theorem c6_witness :
    pullRequestHandler c6Body c6Remote 9 =
      (PrOut.success "url" 7 "aireviewmate-update-9",
       [GhCall.getRef "alice" "proj" "main",
        GhCall.createRef "alice" "proj"
          ("refs/heads/" ++ ("aireviewmate-update-" ++ toString 9)) "abc123",
        GhCall.getFile "alice" "proj" "src/a.js",
        GhCall.putFile "alice" "proj" "src/a.js" ("AIReviewMate: " ++ "Bug Fix")
          (base64encode "x") "def456" ("aireviewmate-update-" ++ toString 9),
        GhCall.createPull "alice" "proj" ("AI Review Suggestion: " ++ "Bug Fix")
          ("aireviewmate-update-" ++ toString 9) "main" "haunted verdict"]) := by
  have h := c6_pull_request_targets_main c6Body c6Remote 9
    (by decide) (by decide) (by decide) (by decide) (by decide) (by decide) (by decide)
    (by decide) (by decide) (by decide) (by decide) (by decide)
  exact h

/-- C7: when the branch-create step answers 409, the endpoint responds
409 Branch conflict and the call trace stops at the two first steps: no
file read, no commit, no pull-request creation is attempted. -/
theorem c7_branch_conflict_aborts (b : PrBody) (env : RemoteEnv) (now : ℕ)
    (h1 : b.accessToken ≠ "") (h2 : b.owner ≠ "") (h3 : b.repo ≠ "") (h4 : b.filePath ≠ "")
    (h5 : b.improvedCode ≠ "") (h6 : b.category ≠ "") (h7 : b.explanation ≠ "")
    (hr : httpOk env.refStatus = true) (hcr : env.createStatus = 409) :
    pullRequestHandler b env now =
      (PrOut.errResp ⟨409, "Branch conflict",
        some "A branch with this name already exists. Please try again."⟩,
       [GhCall.getRef b.owner b.repo "main",
        GhCall.createRef b.owner b.repo
          ("refs/heads/" ++ ("aireviewmate-update-" ++ toString now)) env.refSha]) := by
  have hr401 : env.refStatus ≠ 401 := by
    intro he
    rw [he] at hr
    exact absurd hr (by decide)
  unfold pullRequestHandler
  rw [if_neg (by simp [h1, h2, h3, h4, h5, h6, h7])]
  rw [if_neg hr401, if_neg (by simp [hr]), if_pos hcr]
  rfl

theorem c7_witness :
    pullRequestHandler c6Body
      ⟨"main", 200, "abc123", 409, 200, "def456", 200, 201, "url", 7, none⟩ 3 =
      (PrOut.errResp ⟨409, "Branch conflict",
        some "A branch with this name already exists. Please try again."⟩,
       [GhCall.getRef "alice" "proj" "main",
        GhCall.createRef "alice" "proj"
          ("refs/heads/" ++ ("aireviewmate-update-" ++ toString 3)) "abc123"]) :=
  c7_branch_conflict_aborts c6Body
    ⟨"main", 200, "abc123", 409, 200, "def456", 200, 201, "url", 7, none⟩ 3
    (by decide) (by decide) (by decide) (by decide) (by decide) (by decide) (by decide)
    (by decide) (by rfl)

end AIReview
